import Mathlib

/-!
Verification development for the OpsGuardian agent core: a shallow embedding
of the response-normalization, extraction, retry, classification, suggestion,
reader and orchestration logic of the repository, together with theorems
settling the specification claims.

Texts are modelled as `List Char`.  Python values flowing through the code
(JSON payloads, ticket fields) are modelled by the inductive type `JVal`.
Python exceptions are modelled with `Except PyErr`; code regions whose
exceptions are caught are translated as total functions.
-/

/-- A Python exception, identified by its message (`str(e)`): the retry logic
and the orchestrator only ever inspect the message. -/
structure PyErr where
  msg : List Char
deriving DecidableEq

/-- Whitespace characters stripped by Python `str.strip()` and matched by the
regex class `\s` (ASCII range; the sources only handle ASCII payloads). -/
def isPyWsChar (c : Char) : Bool :=
  c = ' ' || c = '\t' || c = '\n' || c = '\r' || c = '\x0b' || c = '\x0c'

/-- Python `str.strip()`: remove leading and trailing whitespace. -/
def pyStrip (s : List Char) : List Char :=
  ((s.dropWhile isPyWsChar).reverse.dropWhile isPyWsChar).reverse

/-- ASCII lower-casing of a character, as `str.lower()` does on ASCII input. -/
def lowerChar (c : Char) : Char :=
  if 'A' ≤ c ∧ c ≤ 'Z' then Char.ofNat (c.toNat + 32) else c

/-- ASCII upper-casing of a character, as `str.upper()` does on ASCII input. -/
def upperChar (c : Char) : Char :=
  if 'a' ≤ c ∧ c ≤ 'z' then Char.ofNat (c.toNat - 32) else c

/-- Python `str.lower()`. -/
def listLower (s : List Char) : List Char := s.map lowerChar

/-- Python `str.upper()`. -/
def listUpper (s : List Char) : List Char := s.map upperChar

/-- Python substring test `pat in hay`. -/
def isSubstrOf (pat : List Char) (hay : List Char) : Bool :=
  if pat.isPrefixOf hay then true
  else
    match hay with
    | [] => false
    | _ :: t => isSubstrOf pat t

/-- Word characters for the regex `\b` boundary (`[A-Za-z0-9_]`). -/
def isWordChar (c : Char) : Bool :=
  ('A' ≤ c ∧ c ≤ 'Z') || ('a' ≤ c ∧ c ≤ 'z') || ('0' ≤ c ∧ c ≤ '9') || c = '_'

/-- Decimal digits (regex `\d`, ASCII). -/
def isDigitChar (c : Char) : Bool := '0' ≤ c ∧ c ≤ '9'

/-- Case-insensitive prefix test (used for `re.IGNORECASE` literals). -/
def ciStartsWith (pat : List Char) (s : List Char) : Bool :=
  (listLower pat).isPrefixOf (listLower s)

/-- The model of Python values that flow through the agent pipeline: JSON
values produced by `json.loads`, plus the distinction between Python `int`
and `float` (a parsed float is kept as significand and decimal exponent,
`value = sig * 10 ^ exp`). `null` doubles as Python `None`. -/
inductive JVal where
  | null
  | bool (b : Bool)
  | int (n : Int)
  | float (sig : Int) (exp : Int)
  | str (s : List Char)
  | arr (elems : List JVal)
  | obj (fields : List (List Char × JVal))

/-- Python truthiness (`bool(x)`) for the modelled values. -/
def pyTruthy : JVal → Bool
  | .null => false
  | .bool b => b
  | .int n => n != 0
  | .float sig _ => sig != 0
  | .str s => !s.isEmpty
  | .arr xs => !xs.isEmpty
  | .obj fs => !fs.isEmpty

/-- Python `a or b` on values: `a` when truthy, else `b`. -/
def orTruthy (a b : JVal) : JVal := if pyTruthy a then a else b

/-- Model of `dict.get(key)` on a JSON object: the value of the last binding of the
key (later duplicate keys win when `json.loads` builds a `dict`), `null`
when the key is absent (Python `None`). -/
def objGet (fs : List (List Char × JVal)) (k : List Char) : JVal :=
  match fs.reverse.find? (fun p => p.1 == k) with
  | some p => p.2
  | none => JVal.null

/-- digits of a natural number, most significant first. -/
def natChars (n : Nat) : List Char := Nat.toDigits 10 n

/-- Python `str(int)`. -/
def intChars (n : Int) : List Char :=
  if n < 0 then '-' :: natChars n.natAbs else natChars n.natAbs

/-- Best-effort rendering of a Python float given as `sig * 10 ^ exp`
(exact for the plain decimal literals exercised in this development;
Python float `repr` normalization of exotic values is not reproduced). -/
def floatChars (sig exp : Int) : List Char :=
  if 0 ≤ exp then intChars sig ++ List.replicate exp.toNat '0' ++ ".0".data
  else
    let ds := natChars sig.natAbs
    let k := (-exp).toNat
    let sign := if sig < 0 then ['-'] else []
    if k < ds.length then sign ++ ds.take (ds.length - k) ++ '.' :: ds.drop (ds.length - k)
    else sign ++ "0.".data ++ List.replicate (k - ds.length) '0' ++ ds

mutual

/-- Python `repr` of a modelled value. String `repr` always uses single
quotes (Python switches quote style only when the string itself contains
quotes, which the modelled payloads do not). -/
def pyRepr : JVal → List Char
  | .null => "None".data
  | .bool true => "True".data
  | .bool false => "False".data
  | .int n => intChars n
  | .float sig exp => floatChars sig exp
  | .str s => '\x27' :: s ++ ['\x27']
  | .arr xs => '[' :: pyReprItems xs ++ [']']
  | .obj fs => '\x7b' :: pyReprFields fs ++ ['\x7d']

/-- Comma-space separated `repr` of list elements. -/
def pyReprItems : List JVal → List Char
  | [] => []
  | [x] => pyRepr x
  | x :: xs => pyRepr x ++ ", ".data ++ pyReprItems xs

/-- Comma-space separated `repr` of dict entries. -/
def pyReprFields : List (List Char × JVal) → List Char
  | [] => []
  | [(k, v)] => '\x27' :: k ++ "\x27: ".data ++ pyRepr v
  | (k, v) :: fs => '\x27' :: k ++ "\x27: ".data ++ pyRepr v ++ ", ".data ++ pyReprFields fs

end

/-- Python `str(x)`: identical to `repr` except on strings, which render as
themselves (this is what f-string interpolation and `str(...)` produce). -/
def pyStr (v : JVal) : List Char :=
  match v with
  | .str s => s
  | _ => pyRepr v

/-- Whitespace skipped between JSON tokens by `json.loads`. -/
def jsonWsChar (c : Char) : Bool := c = ' ' || c = '\t' || c = '\n' || c = '\r'

/-- Skip inter-token JSON whitespace. -/
def skipJsonWs (s : List Char) : List Char := s.dropWhile jsonWsChar

/-- Value of a hex digit. -/
def hexVal (c : Char) : Option Nat :=
  if '0' ≤ c ∧ c ≤ '9' then some (c.toNat - 48)
  else if 'a' ≤ c ∧ c ≤ 'f' then some (c.toNat - 87)
  else if 'A' ≤ c ∧ c ≤ 'F' then some (c.toNat - 55)
  else none

/-- Single-character JSON string escapes. -/
def escChar (c : Char) : Option Char :=
  if c = '"' || c = '\\' || c = '/' then some c
  else if c = 'b' then some '\x08'
  else if c = 'f' then some '\x0c'
  else if c = 'n' then some '\n'
  else if c = 'r' then some '\r'
  else if c = 't' then some '\t'
  else none

/-- Parse the body of a JSON string after the opening quote, returning the
decoded characters and the remaining input. Strict mode: raw control
characters are rejected, escapes are decoded (`\uXXXX` as a single code
point; surrogate-pair recombination is not modelled). -/
def parseJsonStringBody : List Char → Option (List Char × List Char)
  | [] => none
  | '"' :: rest => some ([], rest)
  | '\\' :: 'u' :: h1 :: h2 :: h3 :: h4 :: rest => do
    let n1 ← hexVal h1
    let n2 ← hexVal h2
    let n3 ← hexVal h3
    let n4 ← hexVal h4
    let (cs, r) ← parseJsonStringBody rest
    pure (Char.ofNat (((n1 * 16 + n2) * 16 + n3) * 16 + n4) :: cs, r)
  | '\\' :: c :: rest => do
    let e ← escChar c
    let (cs, r) ← parseJsonStringBody rest
    pure (e :: cs, r)
  | '\\' :: [] => none
  | c :: rest =>
    if c.toNat < 32 then none
    else do
      let (cs, r) ← parseJsonStringBody rest
      pure (c :: cs, r)

/-- Numeric value of a list of decimal digit characters. -/
def digitsToNat (ds : List Char) : Nat :=
  ds.foldl (fun a c => a * 10 + (c.toNat - 48)) 0

/-- Parse a JSON number (`-? (0 | [1-9][0-9]*) frac? exp?`). Integer literals
become `JVal.int` (Python `int`), literals with a fraction or exponent become
`JVal.float`, mirroring `json.loads`. -/
def parseJsonNumber (s : List Char) : Option (JVal × List Char) :=
  let (neg, s1) := match s with
    | '-' :: r => (true, r)
    | _ => (false, s)
  let ds := s1.takeWhile isDigitChar
  let s2 := s1.dropWhile isDigitChar
  if ds = [] then none
  else if 1 < ds.length ∧ ds.headD 'x' = '0' then none
  else
    let ipart : Nat := digitsToNat ds
    let (hasFrac, fds, s3) := match s2 with
      | '.' :: r => (true, r.takeWhile isDigitChar, r.dropWhile isDigitChar)
      | _ => (false, ([] : List Char), s2)
    if hasFrac ∧ fds = [] then none
    else
      let (hasExp, expOk, expVal, s4) := match s3 with
        | 'e' :: r | 'E' :: r =>
          let (esign, r2) := match r with
            | '+' :: rr => ((1 : Int), rr)
            | '-' :: rr => ((-1 : Int), rr)
            | _ => ((1 : Int), r)
          let eds := r2.takeWhile isDigitChar
          if eds = [] then (true, false, (0 : Int), r2)
          else (true, true, esign * (digitsToNat eds : Int), r2.dropWhile isDigitChar)
        | _ => (false, true, (0 : Int), s3)
      if !expOk then none
      else
        let signed : Int → Int := fun n => if neg then -n else n
        if hasFrac ∨ hasExp then
          let sig : Int := signed ((ipart * 10 ^ fds.length + digitsToNat fds : Nat) : Int)
          some (JVal.float sig (expVal - fds.length), s4)
        else some (JVal.int (signed ipart), s4)

mutual

/-- Fuel-indexed JSON value parser (model of the recursive descent inside
`json.loads`); the fuel bounds the number of parsed values and always
suffices when set to the input length plus one. -/
def parseJsonValue : Nat → List Char → Option (JVal × List Char)
  | 0, _ => none
  | Nat.succ fuel, s =>
    let t := skipJsonWs s
    if ("null".data).isPrefixOf t then some (JVal.null, t.drop 4)
    else if ("true".data).isPrefixOf t then some (JVal.bool true, t.drop 4)
    else if ("false".data).isPrefixOf t then some (JVal.bool false, t.drop 5)
    else
      match t with
      | '"' :: r => (parseJsonStringBody r).map (fun p => (JVal.str p.1, p.2))
      | '[' :: r =>
        (match skipJsonWs r with
         | ']' :: r2 => some (JVal.arr [], r2)
         | _ => (parseJsonItems fuel r).map (fun p => (JVal.arr p.1, p.2)))
      | '\x7b' :: r =>
        (match skipJsonWs r with
         | '\x7d' :: r2 => some (JVal.obj [], r2)
         | _ => (parseJsonMembers fuel r).map (fun p => (JVal.obj p.1, p.2)))
      | t2 => parseJsonNumber t2

/-- Comma-separated JSON array items up to the closing bracket. -/
def parseJsonItems : Nat → List Char → Option (List JVal × List Char)
  | 0, _ => none
  | Nat.succ fuel, s => do
    let (v, r) ← parseJsonValue fuel s
    match skipJsonWs r with
    | ',' :: r2 => do
      let (vs, r3) ← parseJsonItems fuel r2
      pure (v :: vs, r3)
    | ']' :: r2 => pure ([v], r2)
    | _ => none

/-- Comma-separated JSON object members up to the closing brace. -/
def parseJsonMembers : Nat → List Char → Option (List (List Char × JVal) × List Char)
  | 0, _ => none
  | Nat.succ fuel, s =>
    match skipJsonWs s with
    | '"' :: r => do
      let (k, r2) ← parseJsonStringBody r
      match skipJsonWs r2 with
      | ':' :: r3 => do
        let (v, r4) ← parseJsonValue fuel r3
        match skipJsonWs r4 with
        | ',' :: r5 => do
          let (ms, r6) ← parseJsonMembers fuel r5
          pure ((k, v) :: ms, r6)
        | '\x7d' :: r5 => pure ([(k, v)], r5)
        | _ => none
      | _ => none
    | _ => none

end

/-- Model of Python `json.loads` on a text: parse one JSON document with
optional surrounding whitespace; `none` models a raised `JSONDecodeError`.
(The non-standard `NaN`/`Infinity` extensions are not modelled.) -/
def json_loads (s : List Char) : Option JVal :=
  match parseJsonValue (s.length + 1) s with
  | some (v, rest) => if skipJsonWs rest = [] then some v else none
  | none => none

/-!
Models of the compiled regular expressions of `agents/adk_utils.py`.
Each search follows the leftmost-match discipline of `re.search`, with
the backtracking behaviour of the concrete pattern reproduced directly.
-/

/-- Attempt the pattern `` ```(?:json)?\s*(.*?)``` `` (DOTALL) at start
position `i` of `t`; on success return capture group 1. The optional
`json` tag is consumed greedily (backtracking over it can never convert a
failure into a success, because the skipped letters contain no backtick),
`\s*` takes the maximal whitespace run (the closing fence starts with a
non-whitespace character), and the non-greedy group ends at the first
closing fence. -/
def fenceTryAt (t : List Char) (i : Nat) : Option (List Char) :=
  let s := t.drop i
  if ("```".data).isPrefixOf s then
    let s1 := s.drop 3
    let s2 := if ("json".data).isPrefixOf s1 then s1.drop 4 else s1
    let s3 := s2.dropWhile isPyWsChar
    contentBeforeFence s3
  else none
where
  /-- characters before the first ` ``` `; `none` when no closing fence -/
  contentBeforeFence : List Char → Option (List Char)
  | [] => none
  | c :: rest =>
    if ("```".data).isPrefixOf (c :: rest) then some []
    else (contentBeforeFence rest).map (fun l => c :: l)

/-- Model of `CODE_FENCE_RE.search(text)`, returning capture group 1 of the leftmost
match. -/
def fenceSearch (t : List Char) : Option (List Char) :=
  (List.range t.length).findSome? (fun i => fenceTryAt t i)

/-- Where `$` can match in a pattern compiled without `re.MULTILINE`: at the
end of the text or just before a terminating newline. -/
def reDollarAt (t : List Char) (k : Nat) : Bool :=
  k = t.length || (k + 1 = t.length && t.getD k ' ' = '\n')

/-- The opening triple quote accepted by `TEXT_WRAPPER_RE`, if present. -/
def tripleQuoteHead (s : List Char) : Option (List Char) :=
  if ("\"\"\"".data).isPrefixOf s then some "\"\"\"".data
  else if ("\x27\x27\x27".data).isPrefixOf s then some "\x27\x27\x27".data
  else none

/-- Attempt `text\s*=\s*("""|\x27\x27\x27)?(.*?)(\1)?$` (DOTALL) at start
position `i`; on success return capture group 2. After the literal `text`,
maximal whitespace, `=`, maximal whitespace: if an opening triple quote is
present the non-greedy group ends at the earliest position where either the
matching quote followed by `$`, or `$` itself, matches (the engine prefers
the back-reference at equal positions, which does not change group 2);
otherwise the group runs to the earliest `$` position. -/
def wrapperTryAt (t : List Char) (i : Nat) : Option (List Char) :=
  let s := t.drop i
  if ("text".data).isPrefixOf s then
    match (s.drop 4).dropWhile isPyWsChar with
    | '=' :: s2 =>
      let s3 := s2.dropWhile isPyWsChar
      let p := t.length - s3.length
      match tripleQuoteHead s3 with
      | some q =>
        let pb := p + 3
        (List.range (t.length + 1 - pb)).findSome? (fun d =>
          if (q.isPrefixOf (t.drop (pb + d)) && reDollarAt t (pb + d + 3)) || reDollarAt t (pb + d)
          then some ((t.drop pb).take d) else none)
      | none =>
        (List.range (t.length + 1 - p)).findSome? (fun d =>
          if reDollarAt t (p + d) then some ((t.drop p).take d) else none)
    | _ => none
  else none

/-- Model of `TEXT_WRAPPER_RE.search(text)`, returning capture group 2 of the
leftmost match. -/
def wrapperSearch (t : List Char) : Option (List Char) :=
  (List.range t.length).findSome? (fun i => wrapperTryAt t i)

/-- Model of `LEADING_TRIPLE_QUOTE_RE.sub("", text)`: drop one leading `"""` or
`\x27\x27\x27`. -/
def stripLeadingTriple (t : List Char) : List Char :=
  if ("\"\"\"".data).isPrefixOf t || ("\x27\x27\x27".data).isPrefixOf t then t.drop 3 else t

/-- Model of `TRAILING_TRIPLE_QUOTE_RE.sub("", text)`: drop one trailing `"""` or
`\x27\x27\x27`, which (absent `re.MULTILINE`) may also sit just before a
final newline. -/
def stripTrailingTriple (t : List Char) : List Char :=
  if ("\"\"\"".data).isSuffixOf t || ("\x27\x27\x27".data).isSuffixOf t then t.take (t.length - 3)
  else if ("\"\"\"\n".data).isSuffixOf t || ("\x27\x27\x27\n".data).isSuffixOf t then
    t.take (t.length - 4) ++ ['\n']
  else t

/-- Model of `_strip_code_fence_and_wrappers`: take the content of the first code
fence when present, then the inner content of a `text = """..."""` wrapper,
strip leading/trailing triple quotes, and trim whitespace (the debug logging
of the source is not modelled). -/
def strip_code_fence_and_wrappers (t : List Char) : List Char :=
  if t = [] then []
  else
    let t1 := match fenceSearch t with
      | some g1 => pyStrip g1
      | none => t
    let t2 := match wrapperSearch t1 with
      | some g2 => pyStrip g2
      | none => t1
    pyStrip (stripTrailingTriple (stripLeadingTriple t2))

/-- Model of `extract_text_from_adk_response` for a string-shaped runner result:
`_coerce_to_str` returns a plain string unchanged (its first branch), so the
extractor reduces to wrapper stripping. The retry runner always hands the
downstream parsers a string, so this is the shape the claims quantify
over. -/
def extract_text_from_adk_response (raw : List Char) : List Char :=
  strip_code_fence_and_wrappers raw

/-- Whether `re.search` finds a match of `\[[\s\S]*?\]` (respectively
`\{[\s\S]*?\}`): some opening character with a matching closer anywhere
after it. The matched span itself is never observable (see
`find_json_in_text`). -/
def hasBracketPair (o c : Char) (t : List Char) : Bool :=
  match t.dropWhile (fun ch => ch != o) with
  | [] => false
  | _ :: rest => rest.contains c

/-- Model of `_find_json_in_text`. The source calls `match.group(1)` on
`_JSON_ARR_RE`/`_JSON_OBJ_RE`, but both patterns contain **no capture
groups**, so whenever a match is found the call raises
`IndexError("no such group")`; the function can only ever return `None`
(no match) or raise. The array pattern is tried before the object
pattern. -/
def find_json_in_text (t : List Char) : Except PyErr (Option (List Char)) :=
  if t = [] then .ok none
  else if hasBracketPair '[' ']' t then .error ⟨"no such group".data⟩
  else if hasBracketPair '\x7b' '\x7d' t then .error ⟨"no such group".data⟩
  else .ok none

/-- Word-boundary check before position `i` (the alternatives all start with
a word character, so `\b` holds iff the preceding character is not a word
character). -/
def boundaryBefore (t : List Char) (i : Nat) : Bool :=
  i = 0 || !isWordChar (t.getD (i - 1) ' ')

/-- Word-boundary check after position `j` (the alternatives all end with a
word character). -/
def boundaryAfter (t : List Char) (j : Nat) : Bool :=
  t.length ≤ j || !isWordChar (t.getD j ' ')

/-- Leftmost case-insensitive match of `\b(alt1|alt2|...)\b`, returning the
matched text in its original case; at a given position the alternatives are
tried in order. -/
def wordAltSearch (alts : List (List Char)) (t : List Char) : Option (List Char) :=
  (List.range t.length).findSome? (fun i =>
    if boundaryBefore t i then
      alts.findSome? (fun a =>
        if ciStartsWith a (t.drop i) && boundaryAfter t (i + a.length)
        then some ((t.drop i).take a.length) else none)
    else none)

/-- The priority alternation `P0|P1|P2|P3`. -/
def priorityAlts : List (List Char) := ["P0".data, "P1".data, "P2".data, "P3".data]

/-- The category vocabulary alternation of `parse_classification_output`. -/
def categoryAlts : List (List Char) :=
  ["Database".data, "Network".data, "Application".data, "Access".data,
   "Security".data, "Payments".data, "Performance".data, "Other".data, "General".data]

/-- The `{"priority": ..., "category": ...}` shape returned by
`parse_classification_output` (field values may be `null`, Python
`None`). -/
structure ClassOut where
  priority : JVal
  category : JVal

/-- The regex fallback of `parse_classification_output` (its step 3): first
`\b(P0|P1|P2|P3)\b` token upper-cased, first category-vocabulary token in
original case; a result is produced when at least one matched. -/
def classTokenFallback (text : List Char) : Option ClassOut :=
  let pm := wordAltSearch priorityAlts text
  let cm := wordAltSearch categoryAlts text
  match pm, cm with
  | none, none => none
  | _, _ =>
    some { priority := match pm with
             | some s => JVal.str (listUpper s)
             | none => JVal.null
           category := match cm with
             | some s => JVal.str s
             | none => JVal.null }

/-- Step 2 of `parse_classification_output`: consult `_find_json_in_text`.
The `IndexError` it raises whenever a bracket pattern is present escapes to
the enclosing `try` of `parse_classification_output`, which swallows it and
returns `None` — so the step-3 token fallback is reached only when the text
contains no bracket pattern at all. -/
def classEmbeddedStep (text : List Char) : Option ClassOut :=
  match find_json_in_text text with
  | .error _ => none
  | .ok (some embedded) =>
    match json_loads embedded with
    | some (JVal.obj fs) => some ⟨objGet fs "priority".data, objGet fs "category".data⟩
    | _ => classTokenFallback text
  | .ok none => classTokenFallback text

/-- Model of `parse_classification_output` on a string-shaped runner result. -/
def parse_classification_output (raw : List Char) : Option ClassOut :=
  let text := extract_text_from_adk_response raw
  if text = [] then none
  else
    match json_loads text with
    | some (JVal.obj fs) =>
      let p := objGet fs "priority".data
      let c := objGet fs "category".data
      if pyTruthy p || pyTruthy c then some ⟨p, c⟩ else classEmbeddedStep text
    | _ => classEmbeddedStep text

/-- Model of `re.split(r'\r?\n', text)`: split on newlines, a preceding carriage
return belonging to the separator. -/
def splitLinesRe : List Char → List (List Char)
  | [] => [[]]
  | '\r' :: '\n' :: rest => [] :: splitLinesRe rest
  | '\n' :: rest => [] :: splitLinesRe rest
  | c :: rest =>
    match splitLinesRe rest with
    | l :: ls => (c :: l) :: ls
    | [] => [[c]]

/-- The bullet/numbering characters of the class `[\-\*\d\.\)\:]`. -/
def isBulletChar (c : Char) : Bool :=
  c = '-' || c = '*' || isDigitChar c || c = '.' || c = ')' || c = ':'

/-- Model of `re.sub(r'^\s*[\-\*\d\.\)\:]+\s*', '', ln)`: when the line starts with
optional whitespace followed by at least one bullet character, drop that
whitespace, the bullet run and the following whitespace; otherwise the line
is unchanged. -/
def stripBulletMark (ln : List Char) : List Char :=
  let s1 := ln.dropWhile isPyWsChar
  match s1 with
  | c :: _ => if isBulletChar c then (s1.dropWhile isBulletChar).dropWhile isPyWsChar else ln
  | [] => ln

/-- The candidate lines of the line-based heuristic: non-blank stripped
lines of length at least 6, with bullet prefixes removed, excluding lines
that begin with `suggestions` or `return only` (case-insensitive). -/
def lineCandidates (text : List Char) : List (List Char) :=
  let lines := (splitLinesRe text).filterMap (fun ln =>
    let l := pyStrip ln
    if l = [] then none else some l)
  lines.filterMap (fun ln =>
    if ln.length < 6 then none
    else
      let ln2 := stripBulletMark ln
      if ciStartsWith "suggestions".data ln2 || ciStartsWith "return only".data ln2 then none
      else some ln2)

/-- Order-preserving first-occurrence deduplication with an explicit seen
set, as in the source loop. -/
def dedupSeen (seen : List (List Char)) : List (List Char) → List (List Char)
  | [] => []
  | c :: cs => if c ∈ seen then dedupSeen seen cs else c :: dedupSeen (c :: seen) cs

/-- Step 3 of `extract_suggestions_from_adk_response`: line heuristics,
deduplication, cap at 6; an empty candidate list falls through to the final
`return out` (the empty list). -/
def lineHeuristicStep (text : List Char) : List (List Char) :=
  let candidates := lineCandidates text
  if candidates = [] then [] else (dedupSeen [] candidates).take 6

/-- Model of `[str(x).strip() for x in parsed if str(x).strip()]`. -/
def stringifyEntries (xs : List JVal) : List (List Char) :=
  xs.filterMap (fun x =>
    let s := pyStrip (pyStr x)
    if s = [] then none else some s)

/-- Model of `extract_suggestions_from_adk_response` on a string-shaped runner
result. Note that, exactly as in the source, the whole-text JSON-array path
returns the stringified entries with no deduplication and no cap; the
`IndexError` raised inside `_find_json_in_text` whenever the text contains
a bracket pattern is caught by the outer handler, which returns the empty
list. -/
def extract_suggestions_from_adk_response (raw : List Char) : List (List Char) :=
  let text := extract_text_from_adk_response raw
  if text = [] then []
  else
    match json_loads text with
    | some (JVal.arr xs) => stringifyEntries xs
    | _ =>
      match find_json_in_text text with
      | .error _ => []
      | .ok (some embedded) =>
        match json_loads embedded with
        | some (JVal.arr xs) => stringifyEntries xs
        | _ => lineHeuristicStep text
      | .ok none => lineHeuristicStep text

/-!
`agents/adk_runtime.py`: the retry wrapper. The underlying
`run_agent_sync` call is abstracted as an attempt-indexed behaviour
`call : Nat → Except PyErr (List Char)` (attempt numbers are 1-based, as in
the source loop); sleeping and jitter have no observable effect beyond
timing and are not modelled. -/

/-- The transient-failure test of `run_agent_sync_with_retries`: the
lower-cased exception message contains `429`, `ratelimit`, `rate limit` or
`quota`. -/
def isRateLimitMsg (m : List Char) : Bool :=
  let l := listLower m
  isSubstrOf "429".data l || isSubstrOf "ratelimit".data l ||
    isSubstrOf "rate limit".data l || isSubstrOf "quota".data l

/-- The attempt loop of `run_agent_sync_with_retries`, returning the
outcome together with the number of attempts actually made. `attempt` is
the current 1-based attempt number and the fuel counts the remaining loop
iterations, so `fuel = 0` inside an iteration means `attempt == retries`
(final attempt: re-raise). The fuel-exhausted base case models the trailing
`raise last_exc` with `last_exc = None` (a `TypeError`), reachable only
when `retries < 1`. -/
def retryGo (call : Nat → Except PyErr (List Char)) :
    Nat → Nat → Except PyErr (List Char) × Nat
  | attempt, 0 => (.error ⟨"exceptions must derive from BaseException".data⟩, attempt - 1)
  | attempt, Nat.succ fuel =>
    match call attempt with
    | .ok t => (.ok t, attempt)
    | .error e =>
      if isRateLimitMsg e.msg then
        if fuel = 0 then (.error e, attempt)
        else retryGo call (attempt + 1) fuel
      else (.error e, attempt)

/-- Model of `run_agent_sync_with_retries(agent, prompt, retries)`: run with
retry logic. The second component of the result is the number of attempts
made (observable in the source through the calls issued). -/
def run_agent_sync_with_retries (call : Nat → Except PyErr (List Char))
    (retries : Nat) : Except PyErr (List Char) × Nat :=
  retryGo call 1 retries

/-!
`agents/adk_classifier.py`. The ticket consumed by the classifier is a
normalized ticket dict; its fields are modelled as `JVal` values.
-/

/-- The normalized ticket structure built by `ReaderAgent.read` (every key
is always present, so `dict.get` is plain field access). -/
structure Normalized where
  id : JVal
  title : JVal
  description : JVal
  reporter : JVal
  priority : JVal
  category : JVal
  status : JVal
  raw : JVal

/-- Model of `_KEYWORD_MAP` as the ordered sequence of
`(keyword, (category, priority))` entries; iteration order of a Python
dict is declaration order. -/
def KEYWORD_MAP : List (List Char × List Char × List Char) :=
  [("payment".data, "Payments".data, "P0".data),
   ("pay".data, "Payments".data, "P0".data),
   ("db".data, "Database".data, "P0".data),
   ("database".data, "Database".data, "P0".data),
   ("sql".data, "Database".data, "P1".data),
   ("timeout".data, "Network".data, "P1".data),
   ("latency".data, "Network".data, "P1".data),
   ("login".data, "Application".data, "P1".data),
   ("auth".data, "Access".data, "P1".data),
   ("password".data, "Access".data, "P2".data),
   ("disk".data, "Database".data, "P0".data),
   ("vpn".data, "Network".data, "P1".data),
   ("security".data, "Security".data, "P0".data)]

/-- The `for kw, (cat, prio) in _KEYWORD_MAP.items(): if kw in text`
scan: first entry in declaration order whose keyword occurs in the text. -/
def keywordScan (text : List Char) : Option (List Char × List Char) :=
  KEYWORD_MAP.findSome? (fun e => if isSubstrOf e.1 text then some e.2 else none)

/-- The classification dict shape returned by `classify_with_adk` (the
`used_adk` key is always a `bool`; `category`/`priority` hold whatever
values the winning path produced). -/
structure ClassifyResult where
  category : JVal
  priority : JVal
  used_adk : Bool

/-- Model of `_heuristic_classify(title, description)`: keyword scan over the
lower-cased f-string `f"{title} {description}"`; defaults to
`Other`/`P2`. -/
def heuristic_classify (title description : JVal) : ClassifyResult :=
  let text := listLower (pyStr title ++ " ".data ++ pyStr description)
  match keywordScan text with
  | some cp => ⟨JVal.str cp.1, JVal.str cp.2, false⟩
  | none => ⟨JVal.str "Other".data, JVal.str "P2".data, false⟩

/-- The generic second stage of `_parse_adk_output` for the string-shaped
input the retry runner always produces: a keyword scan over the lower-cased
raw text. -/
def parseAdkGenericStr (raw : List Char) : Option (JVal × JVal) :=
  match keywordScan (listLower raw) with
  | some cp => some (JVal.str cp.1, JVal.str cp.2)
  | none => none

/-- Model of `_parse_adk_output(raw)` for string input, returning
`(category, priority)`: prefer `parse_classification_output` when it yields
a truthy priority (a falsy category is replaced by `Other`); otherwise fall
back to the generic keyword scan; `none` models the final `return None`. -/
def parse_adk_output (raw : List Char) : Option (JVal × JVal) :=
  match parse_classification_output raw with
  | some p =>
    if pyTruthy p.priority then
      some (if pyTruthy p.category then p.category else JVal.str "Other".data, p.priority)
    else parseAdkGenericStr raw
  | none => parseAdkGenericStr raw

/-- Model of `classify_with_adk(normalized_ticket)`: call the runner with retries
(the prompt-building cannot fail; the model behaviour for this prompt is
the attempt-indexed `adkCall`), parse the response, and fall back to the
keyword heuristic on any error or parse failure. The enclosing
`try/except` makes the function total. -/
def classify_with_adk (ticket : Normalized) (adkCall : Nat → Except PyErr (List Char)) :
    ClassifyResult :=
  let title := orTruthy ticket.title (JVal.str [])
  let description := orTruthy ticket.description (JVal.str [])
  match (run_agent_sync_with_retries adkCall 4).1 with
  | .error _ => heuristic_classify title description
  | .ok raw =>
    match parse_adk_output raw with
    | some cp => ⟨cp.1, cp.2, true⟩
    | none => heuristic_classify title description

/-!
`agents/adk_suggester.py`.
-/

/-- Model of `_heuristic_suggestions()`: the fixed fallback list. -/
def heuristic_suggestions : List (List Char) :=
  ["Check service logs for exceptions and stack traces.".data,
   "Verify recent deployments and config changes.".data,
   "Check upstream/downstream dependency availability (DB, third-party APIs).".data]

/-- The suggestion dict shape returned by `suggest_with_adk`. -/
structure SuggestResult where
  suggestions : List (List Char)
  used_adk : Bool

/-- Model of `suggest_with_adk(normalized_ticket)`: call the runner with retries,
extract suggestions, and return them with `used_adk = True` when the
extracted list is truthy (non-empty); otherwise, or on any error, return
the heuristic list with `used_adk = False`. -/
def suggest_with_adk (_ticket : Normalized) (adkCall : Nat → Except PyErr (List Char)) :
    SuggestResult :=
  match (run_agent_sync_with_retries adkCall 4).1 with
  | .error _ => ⟨heuristic_suggestions, false⟩
  | .ok raw =>
    let suggestions := extract_suggestions_from_adk_response raw
    if suggestions = [] then ⟨heuristic_suggestions, false⟩ else ⟨suggestions, true⟩

/-!
`agents/reader_agent.py`.
-/

/-- Python `int(x)` as used on the extracted ticket id: `some` is the
converted integer, `none` models a raised `TypeError`/`ValueError` (which
`read` swallows, keeping the raw value). Strings are stripped and parsed as
optionally signed decimals (PEP 515 underscore grouping is not modelled);
floats truncate toward zero; lists/dicts raise. -/
def pyToInt : JVal → Option Int
  | .int n => some n
  | .bool b => some (if b then 1 else 0)
  | .float sig exp =>
    some (if 0 ≤ exp then sig * (10 : Int) ^ exp.toNat
          else Int.tdiv sig ((10 : Int) ^ (-exp).toNat))
  | .str s =>
    let t := pyStrip s
    let core := fun (ds : List Char) =>
      if ds ≠ [] ∧ ds.all isDigitChar then some (Int.ofNat (digitsToNat ds)) else none
    (match t with
     | '+' :: ds => core ds
     | '-' :: ds => (core ds).map (fun n => -n)
     | ds => core ds)
  | _ => none

/-- The input accepted by `ReaderAgent.read`: a plain Python value (`null`
models literal `None`), or an HTTP-response-like object whose `.json()`
either returns a payload or raises. -/
inductive ReaderInput where
  | val (v : JVal)
  | resp (jsonResult : Except Unit JVal)

/-- The `AttributeError` raised when `.get` is called on a non-dict. -/
def attrErr : PyErr := ⟨"object has no attribute".data⟩

/-- The body of `read` once `raw` has been resolved to a value: unwrap a
dict-valued `ticket` key, then build the normalized structure; `raw.get`
on a non-dict raises `AttributeError`. Note that the `raw` field stores the
value **after** unwrapping (the local variable `raw` was rebound). -/
def readPayload (v : JVal) : Except PyErr Normalized :=
  let v2 := match v with
    | JVal.obj fs =>
      (match objGet fs "ticket".data with
       | JVal.obj inner => JVal.obj inner
       | _ => v)
    | _ => v
  match v2 with
  | JVal.obj fs =>
    let idRaw := orTruthy (objGet fs "id".data)
      (orTruthy (objGet fs "ticketId".data) (objGet fs "ticket_id".data))
    let idVal := match idRaw with
      | JVal.null => JVal.null
      | x => match pyToInt x with
        | some n => JVal.int n
        | none => x
    .ok { id := idVal
          title := orTruthy (objGet fs "title".data)
            (orTruthy (objGet fs "subject".data) (JVal.str []))
          description := orTruthy (objGet fs "description".data)
            (orTruthy (objGet fs "body".data) (JVal.str []))
          reporter := orTruthy (objGet fs "reporter".data)
            (orTruthy (objGet fs "createdBy".data)
              (orTruthy (objGet fs "reporterEmail".data) (JVal.str [])))
          priority := objGet fs "priority".data
          category := objGet fs "category".data
          status := orTruthy (objGet fs "status".data) (JVal.str "OPEN".data)
          raw := v2 }
  | _ => .error attrErr

/-- Model of `ReaderAgent.read(raw)`: `None` raises `ValueError`; a response-like
object is replaced by its `.json()` payload when that call succeeds and
kept as-is otherwise (in which case the subsequent `raw.get` raises
`AttributeError`); then the payload is normalized. -/
def reader_read : ReaderInput → Except PyErr Normalized
  | .val JVal.null => .error ⟨"ReaderAgent.read() received None".data⟩
  | .val v => readPayload v
  | .resp (.ok v) => readPayload v
  | .resp (.error _) => .error attrErr

/-!
`agents/router_agent.py` and the backend collaborator interface of
`tools/backend_client.py`. Backend operations are modelled as functions
returning `Except PyErr JVal`; the orchestrator additionally records the
sequence of backend calls it issues (the observable interaction trace).
-/

/-- The `{"priority":..., "category":..., "status":...}` update payload. -/
structure UpdatePayload where
  priority : JVal
  category : JVal
  status : List Char

/-- The `{"id":..., "suggestions":[...]}` payload posted for
suggestions. -/
structure SuggestionsPayload where
  id : JVal
  suggestions : List (List Char)

/-- One backend interaction issued by the orchestrator. -/
inductive BEvent where
  | getTicket (tid : Int)
  | updateTicket (tid : JVal) (changes : UpdatePayload)
  | addSuggestions (tid : JVal) (payload : SuggestionsPayload)
  | postAtPath (path : List Char) (payload : SuggestionsPayload)

/-- The backend collaborator: each operation either returns a JSON value or
raises. -/
structure Backend where
  get_ticket : Int → Except PyErr JVal
  update_ticket : JVal → UpdatePayload → Except PyErr JVal
  add_suggestions : JVal → SuggestionsPayload → Except PyErr JVal
  post_at_path : List Char → SuggestionsPayload → Except PyErr JVal

/-- The argument of `process_ticket`: a ticket id or a ticket dict. -/
inductive TicketOrId where
  | byId (n : Int)
  | byDict (fields : List (List Char × JVal))

/-- Model of `RouterAgent._ensure_ticket`: fetch by id, pass dicts through. -/
def ensure_ticket (b : Backend) : TicketOrId → Except PyErr JVal × List BEvent
  | .byId n => (b.get_ticket n, [BEvent.getTicket n])
  | .byDict fs => (.ok (JVal.obj fs), [])

/-- Model of `.upper()` on a value: only strings have the method; anything else
raises `AttributeError`. -/
def pyUpper : JVal → Except PyErr (List Char)
  | .str s => .ok (listUpper s)
  | _ => .error attrErr

/-- The status rule of `process_ticket`: keep `RESOLVED`/`CLOSED` as-is;
otherwise priority `P0`/`P1` (after `(... or "").upper()`) gives
`ASSIGNED`, anything else `TRIAGED`. The priority expression is evaluated
only on the non-terminal branch, exactly as in the source. -/
def derive_new_status (current_status : List Char) (classification : ClassifyResult) :
    Except PyErr (List Char) :=
  if current_status = "RESOLVED".data ∨ current_status = "CLOSED".data then .ok current_status
  else
    match pyUpper (orTruthy classification.priority (JVal.str [])) with
    | .error e => .error e
    | .ok pr =>
      .ok (if pr = "P0".data ∨ pr = "P1".data then "ASSIGNED".data else "TRIAGED".data)

/-- The state accumulated by `process_ticket` up to and including the
backend classification update (every failure in this region propagates to
the caller). -/
structure PreState where
  normalized : Normalized
  classification : ClassifyResult
  new_status : List Char
  resolver_update : JVal
  events : List BEvent

/-- The first half of `RouterAgent.process_ticket`: resolve the input,
normalize, classify, derive the new status, and push the classification
update. -/
def process_update_stage (b : Backend) (classCall : Nat → Except PyErr (List Char))
    (input : TicketOrId) : Except PyErr PreState :=
  let te := ensure_ticket b input
  match te.1 with
  | .error e => .error e
  | .ok rawTicket =>
    match reader_read (ReaderInput.val rawTicket) with
    | .error e => .error e
    | .ok normalized =>
      let classification := classify_with_adk normalized classCall
      match pyUpper (orTruthy normalized.status (JVal.str [])) with
      | .error e => .error e
      | .ok current_status =>
        match derive_new_status current_status classification with
        | .error e => .error e
        | .ok new_status =>
          let payload : UpdatePayload :=
            ⟨classification.priority, classification.category, new_status⟩
          match b.update_ticket normalized.id payload with
          | .error e => .error e
          | .ok resolver_update =>
            .ok ⟨normalized, classification, new_status, resolver_update,
              te.2 ++ [BEvent.updateTicket normalized.id payload]⟩

/-- The error-shaped response `{"status": "failed", "error": str(e)}`. -/
def failedObj (msg : List Char) : JVal :=
  JVal.obj [("status".data, JVal.str "failed".data), ("error".data, JVal.str msg)]

/-- The suggestion-delivery block of `process_ticket`: try
`add_suggestions`; on any failure fall back to a generic POST to
`/tickets/{id}/suggestions`; if that also fails, produce the error-shaped
response instead of raising. Total by construction. -/
def suggestion_delivery (b : Backend) (tid : JVal) (payload : SuggestionsPayload) :
    JVal × List BEvent :=
  match b.add_suggestions tid payload with
  | .ok v => (v, [BEvent.addSuggestions tid payload])
  | .error _ =>
    let path := "/tickets/".data ++ pyStr tid ++ "/suggestions".data
    match b.post_at_path path payload with
    | .ok v => (v, [BEvent.addSuggestions tid payload, BEvent.postAtPath path payload])
    | .error e =>
      (failedObj e.msg, [BEvent.addSuggestions tid payload, BEvent.postAtPath path payload])

/-- The result dict returned by `process_ticket`. -/
structure Report where
  normalized : Normalized
  classification : ClassifyResult
  used_adk_classification : Bool
  resolver_update : JVal
  suggestions : SuggestionsPayload
  used_adk_suggestions : Bool
  backend_response : JVal

/-- Model of `RouterAgent.process_ticket(ticket_or_id)`: the full pipeline,
returning the report together with the backend interaction trace. The
classification and suggestion model behaviours are the attempt-indexed
collaborator calls `classCall` and `suggCall`. -/
def process_ticket (b : Backend) (classCall suggCall : Nat → Except PyErr (List Char))
    (input : TicketOrId) : Except PyErr (Report × List BEvent) :=
  match process_update_stage b classCall input with
  | .error e => .error e
  | .ok pre =>
    let sres := suggest_with_adk pre.normalized suggCall
    let slist := if sres.suggestions = [] then [] else sres.suggestions
    let spayload : SuggestionsPayload := ⟨pre.normalized.id, slist⟩
    let dr := suggestion_delivery b pre.normalized.id spayload
    .ok (⟨pre.normalized, pre.classification, pre.classification.used_adk,
      pre.resolver_update, spayload, sres.used_adk, dr.1⟩, pre.events ++ dr.2)

/-!
Concrete fixtures used by the claim theorems and witnesses.
-/

/-- The classification JSON embedded in surrounding prose. -/
def c1ProseText : List Char :=
  "Here is the result: \x7b\"priority\":\"P1\",\"category\":\"Network\"\x7d hope that helps".data

/-- The classification JSON wrapped only in a code fence. -/
def c1FenceText : List Char :=
  "```json\n\x7b\"priority\":\"P1\",\"category\":\"Network\"\x7d\n```".data

/-- A JSON array of ten duplicate-containing strings. -/
def c2DupArrayText : List Char :=
  "[\"restart\",\"restart\",\"restart\",\"restart\",\"restart\",\"restart\",\"restart\",\"restart\",\"restart\",\"restart\"]".data

/-- The payment-gateway scenario ticket of the spec, as normalized by the
reader. -/
def paymentTicket : Normalized :=
  { id := JVal.int 7
    title := JVal.str "Payment gateway timeout".data
    description := JVal.str "checkout fails".data
    reporter := JVal.str []
    priority := JVal.null
    category := JVal.null
    status := JVal.str "OPEN".data
    raw := JVal.obj [] }

/-- A model reply whose classification JSON carries numeric field values. -/
def c10ModelText : List Char :=
  "\x7b\"priority\": 5, \"category\": 7\x7d".data

/-- A model collaborator that always fails with a non-transient error. -/
def errCall : Nat → Except PyErr (List Char) := fun _ => .error ⟨"boom".data⟩

/-- An inner ticket payload. -/
def c9Inner : List (List Char × JVal) :=
  [("id".data, JVal.int 1), ("title".data, JVal.str "db down".data)]

/-- The same payload wrapped under a `ticket` key. -/
def c9Wrapped : List (List Char × JVal) := [("ticket".data, JVal.obj c9Inner)]

/-- An open ticket whose title triggers the `db` keyword. -/
def c5Fields : List (List Char × JVal) :=
  [("id".data, JVal.int 3), ("title".data, JVal.str "db down".data),
   ("status".data, JVal.str "OPEN".data)]

/-- The same ticket already resolved. -/
def c5TermFields : List (List Char × JVal) :=
  [("id".data, JVal.int 3), ("title".data, JVal.str "db down".data),
   ("status".data, JVal.str "RESOLVED".data)]

/-- A backend whose every operation succeeds. -/
def bHappy : Backend :=
  { get_ticket := fun _ => .ok JVal.null
    update_ticket := fun _ _ => .ok (JVal.str "updated".data)
    add_suggestions := fun _ _ => .ok (JVal.str "added".data)
    post_at_path := fun _ _ => .ok (JVal.str "posted".data) }

/-- A backend whose dedicated suggestions operation fails but whose generic
POST succeeds. -/
def bAddFailPostOk : Backend :=
  { bHappy with add_suggestions := fun _ _ => .error ⟨"nope".data⟩ }

/-- A backend where both suggestion-delivery operations fail. -/
def bAllFail : Backend :=
  { bHappy with
    add_suggestions := fun _ _ => .error ⟨"nope".data⟩
    post_at_path := fun _ _ => .error ⟨"down".data⟩ }

/-- Fallback values used by the run-projection fixtures below. -/
def defaultNormalized : Normalized :=
  ⟨JVal.null, JVal.str [], JVal.str [], JVal.str [], JVal.null, JVal.null,
    JVal.str "OPEN".data, JVal.obj []⟩

/-- Fallback report for the run projections. -/
def defaultReport : Report :=
  ⟨defaultNormalized, ⟨JVal.null, JVal.null, false⟩, false, JVal.null,
    ⟨JVal.null, []⟩, false, JVal.null⟩

/-- The report of a processing run (`none`-like fallback on error). -/
def reportOfRun (x : Except PyErr (Report × List BEvent)) : Report :=
  match x with
  | .ok rt => rt.1
  | .error _ => defaultReport

/-- The trace of a processing run. -/
def traceOfRun (x : Except PyErr (Report × List BEvent)) : List BEvent :=
  match x with
  | .ok rt => rt.2
  | .error _ => []

/-- The backend response inside a completed report; `none` when processing
raised. -/
def backendResponseOf (x : Except PyErr (Report × List BEvent)) : Option JVal :=
  match x with
  | .ok rt => some rt.1.backend_response
  | .error _ => none

/-- The open-ticket processing run used by the status-derivation witness. -/
def c5Run : Except PyErr (Report × List BEvent) :=
  process_ticket bHappy errCall errCall (TicketOrId.byDict c5Fields)

/-- The resolved-ticket processing run. -/
def c5TermRun : Except PyErr (Report × List BEvent) :=
  process_ticket bHappy errCall errCall (TicketOrId.byDict c5TermFields)

/-- The update payload pushed for the open `db down` ticket. -/
def c5Payload : UpdatePayload :=
  ⟨JVal.str "P0".data, JVal.str "Database".data, "ASSIGNED".data⟩

/-- The update payload pushed for the resolved `db down` ticket. -/
def c5TermPayload : UpdatePayload :=
  ⟨JVal.str "P0".data, JVal.str "Database".data, "RESOLVED".data⟩

/-!
Helper lemmas shared by the claim theorems.
-/

/-- The function `_find_json_in_text` can never produce a matched substring: both regex
patterns are group-less, so `group(1)` raises whenever a match exists. -/
theorem find_json_in_text_never_some (t : List Char) (s : List Char) :
    find_json_in_text t ≠ .ok (some s) := by
  unfold find_json_in_text
  split
  · intro h; cases h
  · split
    · intro h; cases h
    · split
      · intro h; cases h
      · intro h; cases h

/-- Elements produced by `dedupSeen` never come from the seen set. -/
theorem dedupSeen_not_mem_seen (l : List (List Char)) :
    ∀ seen x, x ∈ dedupSeen seen l → x ∉ seen := by
  induction l with
  | nil => intro seen x h; simp [dedupSeen] at h
  | cons c cs ih =>
    intro seen x h
    by_cases hc : c ∈ seen
    · rw [dedupSeen, if_pos hc] at h
      exact ih seen x h
    · rw [dedupSeen, if_neg hc] at h
      rcases List.mem_cons.mp h with h1 | h2
      · subst h1; exact hc
      · intro hx
        exact (ih _ x h2) (List.mem_cons_of_mem _ hx)

/-- The function `dedupSeen` produces a duplicate-free list. -/
theorem dedupSeen_nodup (l : List (List Char)) : ∀ seen, (dedupSeen seen l).Nodup := by
  induction l with
  | nil => intro seen; simp [dedupSeen]
  | cons c cs ih =>
    intro seen
    by_cases hc : c ∈ seen
    · rw [dedupSeen, if_pos hc]; exact ih seen
    · rw [dedupSeen, if_neg hc]
      refine List.nodup_cons.mpr ⟨?_, ih (c :: seen)⟩
      intro hmem
      exact (dedupSeen_not_mem_seen cs (c :: seen) c hmem) (List.mem_cons_self c seen)

/-- The line-heuristic step yields a duplicate-free list of at most six
entries. -/
theorem lineHeuristicStep_nodup_le6 (t : List Char) :
    (lineHeuristicStep t).Nodup ∧ (lineHeuristicStep t).length ≤ 6 := by
  unfold lineHeuristicStep
  dsimp only
  split
  · exact ⟨List.nodup_nil, by simp⟩
  · constructor
    · exact List.Nodup.sublist (List.take_sublist 6 _) (dedupSeen_nodup _ [])
    · exact List.length_take_le 6 _

/-!
C1. The spec claims `parse_classification_output` recovers
`{"priority":"P1","category":"Network"}` from the JSON object embedded in
arbitrary prose and/or a code fence. The code-fence case works, but the
prose case hits `_find_json_in_text`, whose `group(1)` call on a group-less
pattern raises `IndexError`; the enclosing handler swallows it and the
function returns `None` (the token fallback of step 3 is skipped too).
-/

/-- C1 (code bug): on prose-embedded classification JSON the extractor
returns `None` — the internal `IndexError` aborts extraction — while the
pure code-fence wrapping is recovered correctly; the spec claims both
succeed. -/
theorem claim_C1_extractor_round_trip :
    parse_classification_output c1ProseText = none
    ∧ find_json_in_text (extract_text_from_adk_response c1ProseText) =
        .error ⟨"no such group".data⟩
    ∧ parse_classification_output c1FenceText =
        some ⟨JVal.str "P1".data, JVal.str "Network".data⟩ :=
  ⟨rfl, rfl, rfl⟩

/-!
C2. The spec claims every extraction path of
`extract_suggestions_from_adk_response` deduplicates and caps at 6. The
JSON-array paths do neither; only the line heuristic does.
-/

/-- C2 counterexample: on a JSON array of 10 duplicate strings the
whole-text path returns all ten entries, duplicates included and cap
exceeded. -/
theorem claim_C2_counterexample :
    extract_suggestions_from_adk_response c2DupArrayText = List.replicate 10 "restart".data
    ∧ ¬ (extract_suggestions_from_adk_response c2DupArrayText).Nodup
    ∧ 6 < (extract_suggestions_from_adk_response c2DupArrayText).length := by
  refine ⟨rfl, ?_, ?_⟩
  · rw [(rfl : extract_suggestions_from_adk_response c2DupArrayText = List.replicate 10 "restart".data)]
    decide
  · rw [(rfl : extract_suggestions_from_adk_response c2DupArrayText = List.replicate 10 "restart".data)]
    decide

/-- C2 as amended: the whole-text JSON-array path returns every non-empty
stringified entry unchanged (no deduplication, no cap), and on every input
whose normalized text is not a JSON array the result is duplicate-free with
at most six entries (the line heuristic dedups and caps; the embedded-array
path can only yield the empty list because of the `IndexError` inside
`_find_json_in_text`). -/
theorem claim_C2_amended_dedup_cap (raw : List Char) :
    (∀ xs, json_loads (extract_text_from_adk_response raw) = some (JVal.arr xs) →
      extract_suggestions_from_adk_response raw = stringifyEntries xs)
    ∧ ((∀ xs, json_loads (extract_text_from_adk_response raw) ≠ some (JVal.arr xs)) →
      (extract_suggestions_from_adk_response raw).Nodup
      ∧ (extract_suggestions_from_adk_response raw).length ≤ 6) := by
  constructor
  · intro xs h
    unfold extract_suggestions_from_adk_response
    dsimp only
    split
    · rename_i ht
      rw [ht] at h
      have hnone : json_loads ([] : List Char) = none := rfl
      rw [hnone] at h
      cases h
    · rw [h]
  · intro h
    unfold extract_suggestions_from_adk_response
    dsimp only
    split
    · exact ⟨List.nodup_nil, by simp⟩
    · split
      · rename_i xs harr
        exact absurd harr (h xs)
      · split
        · exact ⟨List.nodup_nil, by simp⟩
        · rename_i hsome
          exact absurd hsome (find_json_in_text_never_some _ _)
        · exact lineHeuristicStep_nodup_le6 _

/-- Witness for the amended C2: the numbered-duplicate-lines scenario takes
the heuristic path (deduplicated, two entries), and the duplicate JSON
array takes the whole-text path (all ten entries returned). -/
theorem claim_C2_amended_dedup_cap_witness :
    ((extract_suggestions_from_adk_response
        "1) Check logs\n2) Check logs\n3) Restart service".data).Nodup
      ∧ (extract_suggestions_from_adk_response
        "1) Check logs\n2) Check logs\n3) Restart service".data).length ≤ 6)
    ∧ extract_suggestions_from_adk_response c2DupArrayText =
        stringifyEntries (List.replicate 10 (JVal.str "restart".data)) :=
  ⟨(claim_C2_amended_dedup_cap "1) Check logs\n2) Check logs\n3) Restart service".data).2
      (by intro xs h; cases h),
   (claim_C2_amended_dedup_cap c2DupArrayText).1
      (List.replicate 10 (JVal.str "restart".data)) rfl⟩

/-!
C4. The retry invoker.
-/

/-- C4: with `retries = 4`, an always-failing call whose message is
rate-limit-like is attempted exactly 4 times and the original error is
re-raised; a call failing with any other message is re-raised after exactly
one attempt. -/
theorem claim_C4_retry_attempts (e : PyErr) (call : Nat → Except PyErr (List Char))
    (hcall : ∀ n, call n = .error e) :
    (isRateLimitMsg e.msg = true →
      run_agent_sync_with_retries call 4 = (.error e, 4))
    ∧ (isRateLimitMsg e.msg = false →
      run_agent_sync_with_retries call 4 = (.error e, 1)) := by
  constructor
  · intro h
    simp [run_agent_sync_with_retries, retryGo, hcall, h]
  · intro h
    simp [run_agent_sync_with_retries, retryGo, hcall, h]

/-- Witness for C4 at the concrete errors `429 rate limited` (4 attempts)
and `boom` (1 attempt). -/
theorem claim_C4_retry_attempts_witness :
    run_agent_sync_with_retries (fun _ => .error ⟨"429 rate limited".data⟩) 4 =
      (.error ⟨"429 rate limited".data⟩, 4)
    ∧ run_agent_sync_with_retries (fun _ => .error ⟨"boom".data⟩) 4 =
      (.error ⟨"boom".data⟩, 1) :=
  ⟨(claim_C4_retry_attempts ⟨"429 rate limited".data⟩ _ (fun _ => rfl)).1 (by decide),
   (claim_C4_retry_attempts ⟨"boom".data⟩ _ (fun _ => rfl)).2 (by decide)⟩

/-!
C3. Fallback totality of classification and suggestion.
-/

/-- An always-failing collaborator drives the retry loop to re-raise. -/
theorem run_retries_error (e : PyErr) (call : Nat → Except PyErr (List Char))
    (hcall : ∀ n, call n = .error e) :
    (run_agent_sync_with_retries call 4).1 = .error e := by
  by_cases h : isRateLimitMsg e.msg
  · simp [run_agent_sync_with_retries, retryGo, hcall, h]
  · simp [run_agent_sync_with_retries, retryGo, hcall, h]

/-- The keyword heuristic always reports `used_adk = False`. -/
theorem heuristic_classify_used_adk (a b : JVal) :
    (heuristic_classify a b).used_adk = false := by
  unfold heuristic_classify
  dsimp only
  split <;> rfl

/-- C3: both tasks are total in this embedding (every collaborator error is
caught), and with a model that always raises a non-rate-limit error each
returns its deterministic fallback tagged `used_adk = false`. -/
theorem claim_C3_fallback_totality (ticket : Normalized) (e : PyErr)
    (_h : isRateLimitMsg e.msg = false) :
    classify_with_adk ticket (fun _ => .error e) =
      heuristic_classify (orTruthy ticket.title (JVal.str []))
        (orTruthy ticket.description (JVal.str []))
    ∧ (classify_with_adk ticket (fun _ => .error e)).used_adk = false
    ∧ suggest_with_adk ticket (fun _ => .error e) = ⟨heuristic_suggestions, false⟩ := by
  have hrun := run_retries_error e (fun _ => .error e) (fun _ => rfl)
  refine ⟨?_, ?_, ?_⟩
  · unfold classify_with_adk
    rw [hrun]
  · unfold classify_with_adk
    rw [hrun]
    exact heuristic_classify_used_adk _ _
  · unfold suggest_with_adk
    rw [hrun]

/-- Witness for C3 at the payment ticket and the error `boom`. -/
theorem claim_C3_fallback_totality_witness :
    classify_with_adk paymentTicket (fun _ => .error ⟨"boom".data⟩) =
      heuristic_classify (orTruthy paymentTicket.title (JVal.str []))
        (orTruthy paymentTicket.description (JVal.str []))
    ∧ (classify_with_adk paymentTicket (fun _ => .error ⟨"boom".data⟩)).used_adk = false
    ∧ suggest_with_adk paymentTicket (fun _ => .error ⟨"boom".data⟩) =
      ⟨heuristic_suggestions, false⟩ :=
  claim_C3_fallback_totality paymentTicket ⟨"boom".data⟩ (by decide)

/-!
C6. The keyword fallback classifier: first table entry (in declaration
order) whose keyword occurs in the lower-cased `title description`
concatenation wins; no match gives `Other`/`P2`; and the payment scenario
classifies as `Payments`/`P0` with `used_adk = false`.
-/

/-- The function `findSome?` returns the value of the first element (in list order) on
which the function fires. -/
theorem findSome?_of_first_at {α β : Type _} (f : α → Option β) :
    ∀ (l : List α) (i : Nat) (a : α) (b : β),
      l.get? i = some a → f a = some b →
      (∀ j a2, j < i → l.get? j = some a2 → f a2 = none) →
      l.findSome? f = some b := by
  intro l
  induction l with
  | nil => intro i a b hget; cases hget
  | cons x xs ih =>
    intro i a b hget hf hprev
    cases i with
    | zero =>
      rw [List.findSome?_cons]
      have hx : x = a := by simpa using hget
      rw [hx, hf]
    | succ n =>
      rw [List.findSome?_cons]
      have h0 : f x = none := hprev 0 x (Nat.succ_pos n) rfl
      rw [h0]
      exact ih n a b (by simpa using hget) hf
        (fun j a2 hj hg => hprev (j + 1) a2 (Nat.succ_lt_succ hj) (by simpa using hg))

/-- C6: (first-match) whenever entry `i` of the keyword table matches the
lower-cased title/description text and no earlier entry does, the heuristic
returns exactly that entry with `used_adk = false`; (default) when no entry
matches it returns `Other`/`P2`; (scenario) the payment-gateway ticket with
an always-failing non-transient model classifies as
`Payments`/`P0`/`used_adk = false`. -/
theorem claim_C6_keyword_first_match :
    (∀ (title desc : List Char) (i : Nat) (kw cat pr : List Char),
      KEYWORD_MAP.get? i = some (kw, cat, pr) →
      isSubstrOf kw (listLower (title ++ " ".data ++ desc)) = true →
      (∀ j kw2 cat2 pr2, j < i → KEYWORD_MAP.get? j = some (kw2, cat2, pr2) →
        isSubstrOf kw2 (listLower (title ++ " ".data ++ desc)) = false) →
      heuristic_classify (JVal.str title) (JVal.str desc) =
        ⟨JVal.str cat, JVal.str pr, false⟩)
    ∧ (∀ (title desc : List Char),
      (∀ e2 ∈ KEYWORD_MAP, isSubstrOf e2.1 (listLower (title ++ " ".data ++ desc)) = false) →
      heuristic_classify (JVal.str title) (JVal.str desc) =
        ⟨JVal.str "Other".data, JVal.str "P2".data, false⟩)
    ∧ (∀ (e : PyErr), isRateLimitMsg e.msg = false →
      classify_with_adk paymentTicket (fun _ => .error e) =
        ⟨JVal.str "Payments".data, JVal.str "P0".data, false⟩) := by
  refine ⟨?_, ?_, ?_⟩
  · intro title desc i kw cat pr hget hsub hprev
    have hscan : keywordScan (listLower (title ++ " ".data ++ desc)) = some (cat, pr) := by
      apply findSome?_of_first_at _ KEYWORD_MAP i (kw, cat, pr)
      · exact hget
      · show (if isSubstrOf kw (listLower (title ++ " ".data ++ desc))
            then some (cat, pr) else none) = some (cat, pr)
        rw [hsub]
        exact if_pos rfl
      · intro j a2 hj hg
        have ha2 : isSubstrOf a2.1 (listLower (title ++ " ".data ++ desc)) = false :=
          hprev j a2.1 a2.2.1 a2.2.2 hj (by simpa using hg)
        show (if isSubstrOf a2.1 (listLower (title ++ " ".data ++ desc))
            then some a2.2 else none) = none
        rw [ha2]
        exact if_neg (by simp)
    unfold heuristic_classify
    dsimp only [pyStr]
    rw [hscan]
  · intro title desc hnone
    have hscan : keywordScan (listLower (title ++ " ".data ++ desc)) = none := by
      apply List.findSome?_eq_none_iff.mpr
      intro x hx
      have hx2 := hnone x hx
      show (if isSubstrOf x.1 (listLower (title ++ " ".data ++ desc))
          then some x.2 else none) = none
      rw [hx2]
      exact if_neg (by simp)
    unfold heuristic_classify
    dsimp only [pyStr]
    rw [hscan]
  · intro e he
    have hrun := run_retries_error e (fun _ => .error e) (fun _ => rfl)
    unfold classify_with_adk
    rw [hrun]
    rfl

/-- Witness for C6: entry 0 (`payment`) matches the payment scenario text
first; `hello world` matches nothing; the scenario holds at error
`boom`. -/
theorem claim_C6_keyword_first_match_witness :
    heuristic_classify (JVal.str "Payment gateway timeout".data)
      (JVal.str "checkout fails".data) =
      ⟨JVal.str "Payments".data, JVal.str "P0".data, false⟩
    ∧ heuristic_classify (JVal.str "hullo".data) (JVal.str "world".data) =
      ⟨JVal.str "Other".data, JVal.str "P2".data, false⟩
    ∧ classify_with_adk paymentTicket (fun _ => .error ⟨"boom".data⟩) =
      ⟨JVal.str "Payments".data, JVal.str "P0".data, false⟩ :=
  ⟨claim_C6_keyword_first_match.1 "Payment gateway timeout".data "checkout fails".data 0
      "payment".data "Payments".data "P0".data rfl (by decide)
      (fun j _ _ _ hj _ => absurd hj (Nat.not_lt_zero j)),
   claim_C6_keyword_first_match.2.1 "hullo".data "world".data (by decide),
   claim_C6_keyword_first_match.2.2 ⟨"boom".data⟩ (by decide)⟩

/-!
C8 and C10. Invariants of the classification result.
-/

/-- A successful keyword scan yields one of the table entries, whose
category and priority are non-empty string constants. -/
theorem keywordScan_nonempty (t : List Char) (cp : List Char × List Char)
    (h : keywordScan t = some cp) : cp.1 ≠ [] ∧ cp.2 ≠ [] := by
  obtain ⟨l1, a, l2, heq, hfa, -⟩ := List.findSome?_eq_some_iff.mp h
  have hmem : a ∈ KEYWORD_MAP := by
    rw [heq]
    exact List.mem_append_right _ (List.mem_cons_self a l2)
  have hcp : cp = a.2 := by
    by_cases hs : isSubstrOf a.1 t
    · simp [hs] at hfa; exact hfa.symm
    · simp [hs] at hfa
  subst hcp
  revert hmem
  have : ∀ x ∈ KEYWORD_MAP, x.2.1 ≠ [] ∧ x.2.2 ≠ [] := by decide
  exact this a

/-- Unfolded shape of `classify_with_adk` (the `let` bindings of the
definition zeta-reduced away). -/
theorem classify_with_adk_eq (ticket : Normalized) (call : Nat → Except PyErr (List Char)) :
    classify_with_adk ticket call =
      (match (run_agent_sync_with_retries call 4).1 with
       | .error _ => heuristic_classify (orTruthy ticket.title (JVal.str []))
           (orTruthy ticket.description (JVal.str []))
       | .ok raw =>
         match parse_adk_output raw with
         | some cp => ⟨cp.1, cp.2, true⟩
         | none => heuristic_classify (orTruthy ticket.title (JVal.str []))
             (orTruthy ticket.description (JVal.str []))) := rfl

/-- Whatever `_parse_adk_output` returns is truthy in both components. -/
theorem parse_adk_output_truthy (raw : List Char) (cp : JVal × JVal)
    (h : parse_adk_output raw = some cp) :
    pyTruthy cp.1 = true ∧ pyTruthy cp.2 = true := by
  have hgen : ∀ cp2 : JVal × JVal, parseAdkGenericStr raw = some cp2 →
      pyTruthy cp2.1 = true ∧ pyTruthy cp2.2 = true := by
    intro cp2 hg
    unfold parseAdkGenericStr at hg
    revert hg
    split
    · rename_i kv hkv
      intro hg
      cases hg
      have := keywordScan_nonempty _ kv hkv
      constructor
      · simp [pyTruthy, this.1]
      · simp [pyTruthy, this.2]
    · intro hg; cases hg
  unfold parse_adk_output at h
  revert h
  split
  · rename_i p hp
    dsimp only
    split
    · rename_i htr
      intro h
      cases h
      refine ⟨?_, htr⟩
      split
      · rename_i hc; exact hc
      · rfl
    · exact hgen cp
  · exact hgen cp

/-- C8: `used_adk = true` implies the result passed extractor validation —
the priority and category fields are never both null (the priority is in
fact always truthy on every model-derived path). -/
theorem claim_C8_used_model_validated (ticket : Normalized)
    (call : Nat → Except PyErr (List Char))
    (h : (classify_with_adk ticket call).used_adk = true) :
    ¬((classify_with_adk ticket call).priority = JVal.null
      ∧ (classify_with_adk ticket call).category = JVal.null) := by
  rw [classify_with_adk_eq] at h ⊢
  cases hrun : (run_agent_sync_with_retries call 4).1 with
  | error e =>
    rw [hrun] at h
    dsimp only at h
    rw [heuristic_classify_used_adk] at h
    cases h
  | ok raw =>
    rw [hrun] at h
    dsimp only at h ⊢
    cases hp : parse_adk_output raw with
    | none =>
      rw [hp] at h
      dsimp only at h
      rw [heuristic_classify_used_adk] at h
      cases h
    | some cp =>
      dsimp only
      intro hcontra
      have htr := (parse_adk_output_truthy raw cp hp).2
      rw [hcontra.1] at htr
      cases htr

/-- Witness for C8: a model reply with valid classification JSON yields
`used_adk = true`, and the theorem applies. -/
theorem claim_C8_used_model_validated_witness :
    ¬((classify_with_adk paymentTicket (fun _ => .ok c1FenceText)).priority = JVal.null
      ∧ (classify_with_adk paymentTicket (fun _ => .ok c1FenceText)).category = JVal.null) :=
  claim_C8_used_model_validated paymentTicket (fun _ => .ok c1FenceText) rfl

/-- C10 counterexample: a model reply whose JSON carries numeric priority
and category is accepted (`used_adk = true`) and returned as-is, so the
priority of the classification result is the number 5, not a string. -/
theorem claim_C10_counterexample :
    (classify_with_adk paymentTicket (fun _ => .ok c10ModelText)).used_adk = true
    ∧ (classify_with_adk paymentTicket (fun _ => .ok c10ModelText)).priority = JVal.int 5
    ∧ (classify_with_adk paymentTicket (fun _ => .ok c10ModelText)).category = JVal.int 7
    ∧ (match (classify_with_adk paymentTicket (fun _ => .ok c10ModelText)).priority with
       | JVal.str _ => False
       | _ => True) := by
  exact ⟨rfl, rfl, rfl, trivial⟩

/-- C10 as amended: on every path the classification result carries truthy
(non-null, non-empty, non-zero) priority and category values — strings on
the heuristic and keyword paths, but arbitrary truthy JSON values on the
whole-JSON model path. -/
theorem claim_C10_amended_truthy (ticket : Normalized)
    (call : Nat → Except PyErr (List Char)) :
    pyTruthy (classify_with_adk ticket call).priority = true
    ∧ pyTruthy (classify_with_adk ticket call).category = true := by
  have hheu : ∀ a b : JVal, pyTruthy (heuristic_classify a b).priority = true
      ∧ pyTruthy (heuristic_classify a b).category = true := by
    intro a b
    unfold heuristic_classify
    dsimp only
    split
    · rename_i kv hkv
      have := keywordScan_nonempty _ kv hkv
      exact ⟨by simp [pyTruthy, this.2], by simp [pyTruthy, this.1]⟩
    · exact ⟨by decide, by decide⟩
  rw [classify_with_adk_eq]
  cases hrun : (run_agent_sync_with_retries call 4).1 with
  | error e => exact hheu _ _
  | ok raw =>
    dsimp only
    cases hp : parse_adk_output raw with
    | none => exact hheu _ _
    | some cp =>
      have := parse_adk_output_truthy raw cp hp
      exact ⟨this.2, this.1⟩

/-!
C5 and C7. Orchestrator properties. The proofs invert `process_update_stage` and
`process_ticket` on their success paths.
-/

/-- The resolver step `_ensure_ticket` issues no update call. -/
theorem ensure_no_update (b : Backend) (input : TicketOrId) (tid : JVal) (p : UpdatePayload) :
    BEvent.updateTicket tid p ∉ (ensure_ticket b input).2 := by
  cases input <;> simp [ensure_ticket]

/-- The suggestion-delivery block issues no update call. -/
theorem delivery_no_update (b : Backend) (tid : JVal) (payload : SuggestionsPayload)
    (t2 : JVal) (p2 : UpdatePayload) :
    BEvent.updateTicket t2 p2 ∉ (suggestion_delivery b tid payload).2 := by
  unfold suggestion_delivery
  cases b.add_suggestions tid payload with
  | ok v => simp
  | error e =>
    dsimp only
    cases b.post_at_path ("/tickets/".data ++ pyStr tid ++ "/suggestions".data) payload with
    | ok v => simp
    | error e2 => simp

/-- Success shape of the pipeline prefix: the trace ends with exactly the
update call carrying the derived status, and the status was derived by
`derive_new_status` from the upper-cased normalized status. -/
theorem process_update_stage_shape (b : Backend) (cc : Nat → Except PyErr (List Char))
    (input : TicketOrId) (pre : PreState)
    (h : process_update_stage b cc input = .ok pre) :
    ∃ cs,
      pre.events = (ensure_ticket b input).2 ++
        [BEvent.updateTicket pre.normalized.id
          ⟨pre.classification.priority, pre.classification.category, pre.new_status⟩]
      ∧ pyUpper (orTruthy pre.normalized.status (JVal.str [])) = .ok cs
      ∧ derive_new_status cs pre.classification = .ok pre.new_status
      ∧ pre.classification = classify_with_adk pre.normalized cc := by
  unfold process_update_stage at h
  dsimp only at h
  cases h1 : (ensure_ticket b input).1 with
  | error e => rw [h1] at h; cases h
  | ok rawTicket =>
    rw [h1] at h
    dsimp only at h
    cases h2 : reader_read (ReaderInput.val rawTicket) with
    | error e => rw [h2] at h; cases h
    | ok normalized =>
      rw [h2] at h
      dsimp only at h
      cases h3 : pyUpper (orTruthy normalized.status (JVal.str [])) with
      | error e => rw [h3] at h; cases h
      | ok cs =>
        rw [h3] at h
        dsimp only at h
        cases h4 : derive_new_status cs (classify_with_adk normalized cc) with
        | error e => rw [h4] at h; cases h
        | ok ns =>
          rw [h4] at h
          dsimp only at h
          cases h5 : b.update_ticket normalized.id
              ⟨(classify_with_adk normalized cc).priority,
               (classify_with_adk normalized cc).category, ns⟩ with
          | error e => rw [h5] at h; cases h
          | ok ru =>
            rw [h5] at h
            dsimp only at h
            injection h with h6
            subst h6
            exact ⟨cs, rfl, h3, h4, rfl⟩

/-- Success shape of the whole pipeline: the report carries the prefix
fields, and the trace is the prefix trace followed by delivery events only
(which contain no update call). -/
theorem process_ticket_ok_inv (b : Backend) (cc sc : Nat → Except PyErr (List Char))
    (input : TicketOrId) (r : Report) (tr : List BEvent)
    (h : process_ticket b cc sc input = .ok (r, tr)) :
    ∃ pre tl, process_update_stage b cc input = .ok pre
      ∧ r.normalized = pre.normalized
      ∧ r.classification = pre.classification
      ∧ tr = pre.events ++ tl
      ∧ ∀ t2 p2, BEvent.updateTicket t2 p2 ∉ tl := by
  unfold process_ticket at h
  cases hpre : process_update_stage b cc input with
  | error e => rw [hpre] at h; cases h
  | ok pre =>
    rw [hpre] at h
    dsimp only at h
    injection h with h1
    injection h1 with hr ht
    subst hr
    subst ht
    exact ⟨pre, _, rfl, rfl, rfl, rfl, fun t2 p2 => delivery_no_update b _ _ t2 p2⟩

/-- Applying `.upper()` after `or ""` to a string value always succeeds with
the upper-cased string. -/
theorem upper_status_str (s : List Char) :
    pyUpper (orTruthy (JVal.str s) (JVal.str [])) = .ok (listUpper s) := by
  cases s with
  | nil => rfl
  | cons c cs => rfl

/-- A string value `or ""` is the string itself (even when empty). -/
theorem orTruthy_str_empty (q : List Char) :
    orTruthy (JVal.str q) (JVal.str []) = JVal.str q := by
  cases q with
  | nil => rfl
  | cons c cs => rfl

/-- Terminal statuses pass through `derive_new_status` unchanged. -/
theorem derive_terminal (cs : List Char) (cl : ClassifyResult)
    (h : cs = "RESOLVED".data ∨ cs = "CLOSED".data) :
    derive_new_status cs cl = .ok cs := by
  unfold derive_new_status
  rw [if_pos h]

/-- A null priority derives `TRIAGED` on the non-terminal branch. -/
theorem derive_null (cs : List Char) (cl : ClassifyResult)
    (hterm : ¬(cs = "RESOLVED".data ∨ cs = "CLOSED".data))
    (hp : cl.priority = JVal.null) :
    derive_new_status cs cl = .ok "TRIAGED".data := by
  unfold derive_new_status
  rw [if_neg hterm, hp]
  rfl

/-- A string priority derives by upper-cased membership in `{P0, P1}` on
the non-terminal branch. -/
theorem derive_str (cs : List Char) (cl : ClassifyResult) (q : List Char)
    (hterm : ¬(cs = "RESOLVED".data ∨ cs = "CLOSED".data))
    (hp : cl.priority = JVal.str q) :
    derive_new_status cs cl =
      .ok (if listUpper q = "P0".data ∨ listUpper q = "P1".data
           then "ASSIGNED".data else "TRIAGED".data) := by
  unfold derive_new_status
  rw [if_neg hterm, hp, orTruthy_str_empty q]
  rfl

/-- C5: whenever `process_ticket` completes, the update call it issued
carries the derived status: terminal `RESOLVED`/`CLOSED` tickets keep their
status regardless of the computed priority, and non-terminal tickets get
`ASSIGNED` exactly when the classification priority upper-cases to `P0` or
`P1`, `TRIAGED` otherwise (null included). -/
theorem claim_C5_status_derivation (b : Backend) (cc sc : Nat → Except PyErr (List Char))
    (input : TicketOrId) (r : Report) (tr : List BEvent)
    (hok : process_ticket b cc sc input = .ok (r, tr))
    (tid : JVal) (p : UpdatePayload)
    (hmem : BEvent.updateTicket tid p ∈ tr) :
    ((r.normalized.status = JVal.str "RESOLVED".data → p.status = "RESOLVED".data)
     ∧ (r.normalized.status = JVal.str "CLOSED".data → p.status = "CLOSED".data))
    ∧ (∀ s, r.normalized.status = JVal.str s →
        ¬(listUpper s = "RESOLVED".data ∨ listUpper s = "CLOSED".data) →
        ((∀ q, r.classification.priority = JVal.str q →
            (listUpper q = "P0".data ∨ listUpper q = "P1".data) →
            p.status = "ASSIGNED".data)
         ∧ (r.classification.priority = JVal.null → p.status = "TRIAGED".data)
         ∧ (∀ q, r.classification.priority = JVal.str q →
            ¬(listUpper q = "P0".data ∨ listUpper q = "P1".data) →
            p.status = "TRIAGED".data))) := by
  obtain ⟨pre, tl, hpre, hrn, hrc, htr, hnotl⟩ :=
    process_ticket_ok_inv b cc sc input r tr hok
  obtain ⟨cs, hev, hcs, hder, -⟩ := process_update_stage_shape b cc input pre hpre
  subst htr
  rcases List.mem_append.mp hmem with hm | hm
  · rw [hev] at hm
    rcases List.mem_append.mp hm with hm2 | hm2
    · exact absurd hm2 (ensure_no_update b input tid p)
    · have heq := List.mem_singleton.mp hm2
      injection heq with heqt heqp
      subst heqp
      -- now `p.status` is `pre.new_status` by rfl
      rw [hrn, hrc]
      constructor
      · constructor
        · intro hstat
          rw [hstat] at hcs
          rw [upper_status_str] at hcs
          injection hcs with hcs1
          rw [derive_terminal cs pre.classification
            (by rw [← hcs1]; left; decide)] at hder
          injection hder with hder1
          show pre.new_status = "RESOLVED".data
          rw [← hder1, ← hcs1]
          decide
        · intro hstat
          rw [hstat] at hcs
          rw [upper_status_str] at hcs
          injection hcs with hcs1
          rw [derive_terminal cs pre.classification
            (by rw [← hcs1]; right; decide)] at hder
          injection hder with hder1
          show pre.new_status = "CLOSED".data
          rw [← hder1, ← hcs1]
          decide
      · intro s hstat hterm
        rw [hstat] at hcs
        rw [upper_status_str] at hcs
        injection hcs with hcs1
        have hterm2 : ¬(cs = "RESOLVED".data ∨ cs = "CLOSED".data) := by
          rw [← hcs1]; exact hterm
        refine ⟨?_, ?_, ?_⟩
        · intro q hq hups
          rw [derive_str cs pre.classification q hterm2 hq, if_pos hups] at hder
          injection hder with hder1
          show pre.new_status = "ASSIGNED".data
          rw [← hder1]
        · intro hq
          rw [derive_null cs pre.classification hterm2 hq] at hder
          injection hder with hder1
          show pre.new_status = "TRIAGED".data
          rw [← hder1]
        · intro q hq hups
          rw [derive_str cs pre.classification q hterm2 hq, if_neg hups] at hder
          injection hder with hder1
          show pre.new_status = "TRIAGED".data
          rw [← hder1]
  · exact absurd hm (hnotl tid p)

/-- Witness for C5: the open `db down` ticket is pushed with status
`ASSIGNED` (priority `P0`), and the already-resolved ticket keeps
`RESOLVED`; both facts obtained through the claim theorem. -/
theorem claim_C5_status_derivation_witness :
    (c5Run = .ok (reportOfRun c5Run, traceOfRun c5Run)
      ∧ BEvent.updateTicket (JVal.int 3) c5Payload ∈ traceOfRun c5Run
      ∧ c5Payload.status = "ASSIGNED".data)
    ∧ (c5TermRun = .ok (reportOfRun c5TermRun, traceOfRun c5TermRun)
      ∧ BEvent.updateTicket (JVal.int 3) c5TermPayload ∈ traceOfRun c5TermRun
      ∧ c5TermPayload.status = "RESOLVED".data) := by
  constructor
  · refine ⟨rfl, List.Mem.head _, ?_⟩
    exact (((claim_C5_status_derivation bHappy errCall errCall (TicketOrId.byDict c5Fields)
        (reportOfRun c5Run) (traceOfRun c5Run) rfl (JVal.int 3) c5Payload
        (List.Mem.head _)).2 "OPEN".data rfl (by decide)).1 "P0".data rfl (by decide))
  · refine ⟨rfl, List.Mem.head _, ?_⟩
    exact ((claim_C5_status_derivation bHappy errCall errCall (TicketOrId.byDict c5TermFields)
        (reportOfRun c5TermRun) (traceOfRun c5TermRun) rfl (JVal.int 3) c5TermPayload
        (List.Mem.head _)).1.1 rfl)

/-- C7: once the pipeline reaches the suggestion stage (the prefix
succeeded), `process_ticket` always completes with a report: when the
dedicated suggestions call fails, the generic POST response is used, and
when that fails too, the report carries the `{status: failed, error}`
shape instead of an exception. -/
theorem claim_C7_delivery_fallback (b : Backend) (cc sc : Nat → Except PyErr (List Char))
    (input : TicketOrId) (pre : PreState)
    (hpre : process_update_stage b cc input = .ok pre) :
    (∀ e1, (∀ tid pl, b.add_suggestions tid pl = .error e1) →
      ((∀ v, (∀ pa pl, b.post_at_path pa pl = .ok v) →
        backendResponseOf (process_ticket b cc sc input) = some v)
       ∧ (∀ e2, (∀ pa pl, b.post_at_path pa pl = .error e2) →
        backendResponseOf (process_ticket b cc sc input) = some (failedObj e2.msg))))
    ∧ (∀ v0, (∀ tid pl, b.add_suggestions tid pl = .ok v0) →
      backendResponseOf (process_ticket b cc sc input) = some v0) := by
  have hbase :
      backendResponseOf (process_ticket b cc sc input) =
        some (suggestion_delivery b pre.normalized.id
          ⟨pre.normalized.id,
            if (suggest_with_adk pre.normalized sc).suggestions = [] then []
            else (suggest_with_adk pre.normalized sc).suggestions⟩).1 := by
    unfold process_ticket
    rw [hpre]
    rfl
  refine ⟨fun e1 hadd => ⟨?_, ?_⟩, ?_⟩
  · intro v hpost
    rw [hbase]
    unfold suggestion_delivery
    rw [hadd]
    dsimp only
    rw [hpost]
  · intro e2 hpost
    rw [hbase]
    unfold suggestion_delivery
    rw [hadd]
    dsimp only
    rw [hpost]
  · intro v0 hadd
    rw [hbase]
    unfold suggestion_delivery
    rw [hadd]

/-- Witness for C7: all three delivery outcomes at the concrete `db down`
ticket — both calls fail (failed-shape response), only the dedicated call
fails (POST response), nothing fails (dedicated response). -/
theorem claim_C7_delivery_fallback_witness :
    backendResponseOf (process_ticket bAllFail errCall errCall (TicketOrId.byDict c5Fields)) =
      some (failedObj "down".data)
    ∧ backendResponseOf
        (process_ticket bAddFailPostOk errCall errCall (TicketOrId.byDict c5Fields)) =
      some (JVal.str "posted".data)
    ∧ backendResponseOf (process_ticket bHappy errCall errCall (TicketOrId.byDict c5Fields)) =
      some (JVal.str "added".data) := by
  refine ⟨?_, ?_, ?_⟩
  · obtain ⟨pre, hpre⟩ :
        ∃ pre, process_update_stage bAllFail errCall (TicketOrId.byDict c5Fields) = .ok pre :=
      ⟨_, rfl⟩
    exact ((claim_C7_delivery_fallback bAllFail errCall errCall _ pre hpre).1
      ⟨"nope".data⟩ (fun _ _ => rfl)).2 ⟨"down".data⟩ (fun _ _ => rfl)
  · obtain ⟨pre, hpre⟩ :
        ∃ pre, process_update_stage bAddFailPostOk errCall (TicketOrId.byDict c5Fields) = .ok pre :=
      ⟨_, rfl⟩
    exact ((claim_C7_delivery_fallback bAddFailPostOk errCall errCall _ pre hpre).1
      ⟨"nope".data⟩ (fun _ _ => rfl)).1 (JVal.str "posted".data) (fun _ _ => rfl)
  · obtain ⟨pre, hpre⟩ :
        ∃ pre, process_update_stage bHappy errCall (TicketOrId.byDict c5Fields) = .ok pre :=
      ⟨_, rfl⟩
    exact (claim_C7_delivery_fallback bHappy errCall errCall _ pre hpre).2
      (JVal.str "added".data) (fun _ _ => rfl)

/-!
C9. The `raw` field of the normalized ticket. The spec claims it is always
the original payload; the code rebinds `raw` during `ticket`-unwrapping
(and `.json()` extraction), so the stored value is the unwrapped payload.
-/

/-- C9 counterexample: for a payload nested under a `ticket` key, the
stored `raw` is the inner dict, which differs from the original payload. -/
theorem claim_C9_counterexample :
    (match reader_read (ReaderInput.val (JVal.obj c9Wrapped)) with
     | .ok n => n.raw
     | .error _ => JVal.null) = JVal.obj c9Inner
    ∧ JVal.obj c9Inner ≠ JVal.obj c9Wrapped := by
  refine ⟨rfl, ?_⟩
  simp [c9Inner, c9Wrapped]

/-- C9 as amended: the `raw` field is the payload **after** unwrapping —
the inner dict when the payload carries a dict-valued `ticket` key, and the
original payload itself otherwise. -/
theorem claim_C9_amended_raw_unwrapped (fs : List (List Char × JVal)) :
    (∀ inner, objGet fs "ticket".data = JVal.obj inner →
      ∃ n, reader_read (ReaderInput.val (JVal.obj fs)) = .ok n ∧ n.raw = JVal.obj inner)
    ∧ ((match objGet fs "ticket".data with
        | JVal.obj _ => False
        | _ => True) →
      ∃ n, reader_read (ReaderInput.val (JVal.obj fs)) = .ok n ∧ n.raw = JVal.obj fs) := by
  constructor
  · intro inner hin
    unfold reader_read readPayload
    dsimp only
    rw [hin]
    exact ⟨_, rfl, rfl⟩
  · intro hno
    cases hob : objGet fs "ticket".data with
    | obj inner =>
      rw [hob] at hno
      exact hno.elim
    | null =>
      unfold reader_read readPayload
      dsimp only
      rw [hob]
      exact ⟨_, rfl, rfl⟩
    | bool b2 =>
      unfold reader_read readPayload
      dsimp only
      rw [hob]
      exact ⟨_, rfl, rfl⟩
    | int n2 =>
      unfold reader_read readPayload
      dsimp only
      rw [hob]
      exact ⟨_, rfl, rfl⟩
    | float sig exp =>
      unfold reader_read readPayload
      dsimp only
      rw [hob]
      exact ⟨_, rfl, rfl⟩
    | str s2 =>
      unfold reader_read readPayload
      dsimp only
      rw [hob]
      exact ⟨_, rfl, rfl⟩
    | arr xs =>
      unfold reader_read readPayload
      dsimp only
      rw [hob]
      exact ⟨_, rfl, rfl⟩

/-- Witness for C9 (amended): the wrapped payload stores the inner dict,
the plain payload stores itself. -/
theorem claim_C9_amended_raw_unwrapped_witness :
    (match reader_read (ReaderInput.val (JVal.obj c9Wrapped)) with
     | .ok n => n.raw
     | .error _ => JVal.null) = JVal.obj c9Inner
    ∧ (match reader_read (ReaderInput.val (JVal.obj c9Inner)) with
       | .ok n => n.raw
       | .error _ => JVal.null) = JVal.obj c9Inner := by
  constructor
  · obtain ⟨n, hn, hraw⟩ := (claim_C9_amended_raw_unwrapped c9Wrapped).1 c9Inner rfl
    rw [hn]
    exact hraw
  · obtain ⟨n, hn, hraw⟩ := (claim_C9_amended_raw_unwrapped c9Inner).2 trivial
    rw [hn]
    exact hraw
